import Mathlib

/-!
# EpochProtos: verification of the schema/data-model contract

A shallow embedding of the EpochProtos document model (scalars, axes,
chart/table/card widgets), its structural-consistency checks and its
serialization round trip, together with proofs of the contract's
testable properties.

The repository ships the message declarations outside of the consumer
sources, so the message bodies are modelled from the specification
(each such definition carries a doc comment saying so); the consumer
sources `example_consumer/main.cpp` and `test/test_cpp.cpp` fix the
field and operation names.
-/

namespace EpochProtos

/-- Modelled from the spec: error kinds of §7 (`TypeMismatch`,
`SchemaMismatch`, `EnumViolation`, `GroupIndexOutOfRange`,
`DuplicateColumnId`); the error type itself is not under the consumer
sources. -/
inductive Err where
  | typeMismatch
  | schemaMismatch
  | enumViolation
  | groupIndexOutOfRange
  | duplicateColumnId
  deriving DecidableEq

/-- Modelled from the spec: the closed column/scalar type enumeration
`{string, decimal, percent, datetime, boolean}` (§6); the enum
declaration is not under the consumer sources. -/
inductive EpochFolioType where
  | string
  | decimal
  | percent
  | datetime
  | boolean
  deriving DecidableEq

/-- Modelled from the spec: `Scalar` is a tagged union holding exactly
one of decimal number, percent, string, date/time, boolean, or the
default null state (§2, §4.1); the message body is not under the
consumer sources.  Decimal and percent magnitudes are modelled as
rationals. -/
inductive Scalar where
  | null
  | decimalValue (v : Rat)
  | percentValue (v : Rat)
  | stringValue (s : String)
  | datetimeValue (t : Int)
  | booleanValue (b : Bool)
  deriving DecidableEq

/-- Presence query for the null/default state. -/
def Scalar.is_null : Scalar → Bool
  | .null => true
  | _ => false

/-- Presence query used at `main.cpp` via `has_decimal_value`. -/
def Scalar.has_decimal_value : Scalar → Bool
  | .decimalValue _ => true
  | _ => false

/-- Presence query used at `main.cpp` via `has_percent_value`. -/
def Scalar.has_percent_value : Scalar → Bool
  | .percentValue _ => true
  | _ => false

/-- Presence query for the string variant. -/
def Scalar.has_string_value : Scalar → Bool
  | .stringValue _ => true
  | _ => false

/-- Presence query for the datetime variant. -/
def Scalar.has_datetime_value : Scalar → Bool
  | .datetimeValue _ => true
  | _ => false

/-- Presence query for the boolean variant. -/
def Scalar.has_boolean_value : Scalar → Bool
  | .booleanValue _ => true
  | _ => false

/-- Number of populated-variant presence queries answering `true` on a
scalar. -/
def Scalar.activeVariants (s : Scalar) : Nat :=
  (cond s.has_decimal_value 1 0) + (cond s.has_percent_value 1 0) +
    (cond s.has_string_value 1 0) + (cond s.has_datetime_value 1 0) +
    (cond s.has_boolean_value 1 0)

/-- Modelled from the spec: reading the active value fails with
`TypeMismatch` when the requested variant is not active (§4.1, §7);
the accessor body is not under the consumer sources. -/
def Scalar.decimal_value : Scalar → Except Err Rat
  | .decimalValue v => .ok v
  | _ => .error .typeMismatch

/-- Percent accessor; fails with `TypeMismatch` off-variant. -/
def Scalar.percent_value : Scalar → Except Err Rat
  | .percentValue v => .ok v
  | _ => .error .typeMismatch

/-- String accessor; fails with `TypeMismatch` off-variant. -/
def Scalar.string_value : Scalar → Except Err String
  | .stringValue v => .ok v
  | _ => .error .typeMismatch

/-- Datetime accessor; fails with `TypeMismatch` off-variant. -/
def Scalar.datetime_value : Scalar → Except Err Int
  | .datetimeValue v => .ok v
  | _ => .error .typeMismatch

/-- Boolean accessor; fails with `TypeMismatch` off-variant. -/
def Scalar.boolean_value : Scalar → Except Err Bool
  | .booleanValue v => .ok v
  | _ => .error .typeMismatch

/-- Setter used at `main.cpp`: overwrites whatever variant was active. -/
def Scalar.set_decimal_value (_s : Scalar) (v : Rat) : Scalar :=
  .decimalValue v

/-- Setter used at `main.cpp`: overwrites whatever variant was active. -/
def Scalar.set_percent_value (_s : Scalar) (v : Rat) : Scalar :=
  .percentValue v

/-- Setter used at `main.cpp`: overwrites whatever variant was active. -/
def Scalar.set_string_value (_s : Scalar) (v : String) : Scalar :=
  .stringValue v

/-- Setter for the datetime variant: overwrites the active variant. -/
def Scalar.set_datetime_value (_s : Scalar) (v : Int) : Scalar :=
  .datetimeValue v

/-- Setter for the boolean variant: overwrites the active variant. -/
def Scalar.set_boolean_value (_s : Scalar) (v : Bool) : Scalar :=
  .booleanValue v

/-- The variant a populated scalar carries, `none` for null. -/
def Scalar.variantType : Scalar → Option EpochFolioType
  | .null => none
  | .decimalValue _ => some .decimal
  | .percentValue _ => some .percent
  | .stringValue _ => some .string
  | .datetimeValue _ => some .datetime
  | .booleanValue _ => some .boolean

/-- A default-constructed scalar, the null state (§4.1). -/
def Scalar.defaultScalar : Scalar := .null

/-- Column description as populated at `main.cpp` (`set_id`, `set_name`,
`set_type`): an id, a display name and the declared scalar type. -/
structure ColumnSchema where
  id : String
  name : String
  type : EpochFolioType
  deriving DecidableEq

/-- A table row: an ordered sequence of scalar values, populated at
`main.cpp` via `add_values`. -/
structure Row where
  values : List Scalar
  deriving DecidableEq

/-- Table payload as populated at `main.cpp` (`add_schema`, `add_rows`):
a column-schema sequence plus a row sequence. -/
structure TableData where
  schema : List ColumnSchema
  rows : List Row
  deriving DecidableEq

/-- Row count, `rows_size()` at `main.cpp`. -/
def TableData.rows_size (td : TableData) : Nat := td.rows.length

/-- Does the scalar carry exactly the variant a column declares? -/
def scalarMatchesType (s : Scalar) (t : EpochFolioType) : Bool :=
  s.variantType = some t

/-- Does a candidate row's shape match a schema: equal arity and, at
each position, the declared variant? -/
def rowMatchesSchema (values : List Scalar) (schema : List ColumnSchema) : Bool :=
  values.length = schema.length &&
    (List.zip values schema).all fun vc => scalarMatchesType vc.1 vc.2.type

/-- Modelled from the spec: the validating `add_row` of §4.4 (not under
the consumer sources, which exercise only the raw protobuf append):
checks arity (`SchemaMismatch`) then per-position variants
(`TypeMismatch`); on failure returns the table unchanged, on success
appends the whole row; no partial mutation. -/
def TableData.add_row (td : TableData) (values : List Scalar) :
    TableData × Option Err :=
  if values.length ≠ td.schema.length then
    (td, some .schemaMismatch)
  else if (List.zip values td.schema).all
      (fun vc => scalarMatchesType vc.1 vc.2.type) then
    ({ td with rows := td.rows ++ [⟨values⟩] }, none)
  else
    (td, some .typeMismatch)

/-- Card as populated at `main.cpp` (`set_title`, `mutable_value`,
`set_type`, `set_group`). -/
structure Card where
  title : String
  value : Scalar
  type : EpochFolioType
  group : Nat
  deriving DecidableEq

/-- Card collection as populated at `main.cpp` (`set_type`,
`set_category`, `set_group_size`, `add_data`); widget kind and
category are carried as raw enumeration codes, checked at seal. -/
structure CardDef where
  typeTag : Nat
  categoryTag : Nat
  group_size : Nat
  data : List Card
  deriving DecidableEq

/-- Number of visual groups implied by a card count and a group size:
`ceil(n/g)` (§3). -/
def numGroups (n g : Nat) : Nat := (n + g - 1) / g

/-- Modelled from the spec: the group-bounds check of §3/§7 (not under
the consumer sources): one `GroupIndexOutOfRange` violation is
collected for every card whose group index is at or beyond
`ceil(count/group_size)`. -/
def CardDef.groupErrors (cd : CardDef) : List Err :=
  cd.data.filterMap fun c =>
    if c.group < numGroups cd.data.length cd.group_size then none
    else some .groupIndexOutOfRange

/-- Axis as populated at `main.cpp` (`set_type`, `set_label`); the kind
is carried as a raw enumeration code, checked at seal. -/
structure Axis where
  kind : Nat
  label : String
  deriving DecidableEq

/-- An (x, y) pair of scalars, as populated at `test_cpp.cpp`. -/
structure Point where
  x : Scalar
  y : Scalar
  deriving DecidableEq

/-- A named ordered sequence of points (`Line` at `main.cpp`): one data
trace of a lines chart. -/
structure Line where
  name : String
  data : List Point
  deriving DecidableEq

/-- Appends one point at the end, `add_data` at `main.cpp`. -/
def Line.add_data (l : Line) (p : Point) : Line :=
  { l with data := l.data ++ [p] }

/-- Point count, `data_size()` at `main.cpp`. -/
def Line.data_size (l : Line) : Nat := l.data.length

/-- Chart metadata as populated at `main.cpp` (`set_id`, `set_title`,
`set_type`, `set_category`, `mutable_x_axis`, `mutable_y_axis`);
widget kind and category are raw enumeration codes, checked at seal. -/
structure ChartDef where
  id : String
  title : String
  typeTag : Nat
  categoryTag : Nat
  x_axis : Option Axis
  y_axis : Option Axis
  deriving DecidableEq

/-- A lines chart as populated at `main.cpp`: chart metadata plus a
sequence of lines. -/
structure LinesDef where
  chart_def : ChartDef
  lines : List Line
  deriving DecidableEq

/-- A table widget as populated at `main.cpp`: chart-shaped metadata,
column definitions and an embedded `TableData`. -/
structure Table where
  id : String
  title : String
  typeTag : Nat
  categoryTag : Nat
  columns : List ColumnSchema
  data : TableData
  deriving DecidableEq

/-- Modelled from the spec: the implied document/dashboard composition
root of §2 (not under the consumer sources), aggregating the widgets. -/
structure Document where
  charts : List LinesDef
  tables : List Table
  cardDefs : List CardDef
  deriving DecidableEq

/-- Membership in the closed widget-kind enumeration (§6), raw codes
0 = lines, 1 = data table, 2 = card. -/
def validWidgetKind (n : Nat) : Bool := n < 3

/-- Membership in the closed category enumeration (§6), raw codes
0 = strategy-benchmark, 1 = positions. -/
def validCategory (n : Nat) : Bool := n < 2

/-- Membership in the closed axis-kind enumeration (§6), raw codes
0 = linear, 1 = logarithmic, 2 = category, 3 = datetime. -/
def validAxisKind (n : Nat) : Bool := n < 4

/-- One `EnumViolation` when a raw code is outside its closed set. -/
def enumErr (ok : Bool) : List Err := if ok then [] else [.enumViolation]

/-- Seal-time errors of one axis: its kind must be a known code. -/
def Axis.errors (a : Axis) : List Err := enumErr (validAxisKind a.kind)

/-- Seal-time errors of an optional axis. -/
def optAxisErrors : Option Axis → List Err
  | none => []
  | some a => a.errors

/-- Seal-time errors of chart metadata: widget kind, category and both
axes. -/
def ChartDef.errors (c : ChartDef) : List Err :=
  enumErr (validWidgetKind c.typeTag) ++ enumErr (validCategory c.categoryTag) ++
    optAxisErrors c.x_axis ++ optAxisErrors c.y_axis

/-- Modelled from the spec: seal-time consistency errors of one row
against a schema (§3, §4.6): arity first (`SchemaMismatch`), else one
`TypeMismatch` per ill-typed position. -/
def rowErrors (schema : List ColumnSchema) (r : Row) : List Err :=
  if r.values.length ≠ schema.length then [.schemaMismatch]
  else
    (List.zip r.values schema).filterMap fun vc =>
      if scalarMatchesType vc.1 vc.2.type then none else some .typeMismatch

/-- One `DuplicateColumnId` when two columns share an id (§3, §7). -/
def dupColumnErrors (schema : List ColumnSchema) : List Err :=
  if (schema.map ColumnSchema.id).Nodup then [] else [.duplicateColumnId]

/-- Seal-time errors of a table payload: duplicate column ids plus
every row's consistency errors, in order. -/
def TableData.errors (td : TableData) : List Err :=
  dupColumnErrors td.schema ++ td.rows.flatMap (rowErrors td.schema)

/-- Seal-time errors of a lines chart: its metadata's errors. -/
def LinesDef.errors (l : LinesDef) : List Err := l.chart_def.errors

/-- Seal-time errors of a table widget: enum membership, duplicate
column ids and the embedded payload's errors. -/
def Table.errors (t : Table) : List Err :=
  enumErr (validWidgetKind t.typeTag) ++ enumErr (validCategory t.categoryTag) ++
    dupColumnErrors t.columns ++ t.data.errors

/-- Seal-time errors of a card collection: enum membership plus the
group-bounds violations. -/
def CardDef.errors (cd : CardDef) : List Err :=
  enumErr (validWidgetKind cd.typeTag) ++ enumErr (validCategory cd.categoryTag) ++
    cd.groupErrors

/-- Modelled from the spec: the Building→Sealed transition runs every
invariant check and collects every violation found, not just the first
(§4.6); not under the consumer sources. -/
def Document.validate (d : Document) : List Err :=
  d.charts.flatMap LinesDef.errors ++ d.tables.flatMap Table.errors ++
    d.cardDefs.flatMap CardDef.errors

/-- Modelled from the spec: `seal()` returns either the sealed document
or the aggregated multi-error report (§4.6, §6). -/
def Document.seal (d : Document) : Except (List Err) Document :=
  match d.validate with
  | [] => .ok d
  | e :: es => .error (e :: es)

/-- The lifecycle states of §4.6. -/
inductive Phase where
  | building
  | sealed
  | serialized
  deriving DecidableEq

/-- A document together with its lifecycle state. -/
structure DocState where
  doc : Document
  phase : Phase
  deriving DecidableEq

/-- Modelled from the spec: one seal/validate call on a stateful
document (§4.6): on success the phase advances to Sealed, on failure
the state is untouched; the validation result is returned either way. -/
def sealStep (s : DocState) : DocState × Except (List Err) Unit :=
  match s.doc.validate with
  | [] => ({ s with phase := .sealed }, .ok ())
  | e :: es => (s, .error (e :: es))

/-- Replaces the element at one position; out-of-range targets leave
the list unchanged (a builder call on a missing widget is a no-op, not
a failure). -/
def modifyAt : List α → Nat → (α → α) → List α
  | [], _, _ => []
  | x :: xs, 0, f => f x :: xs
  | x :: xs, n + 1, f => x :: modifyAt xs n f

/-- The builder calls the consumer sources exercise: field setters,
axis setters and collection appends on the widgets of a document under
construction. -/
inductive BuildOp where
  | addChart (c : LinesDef)
  | chartSetId (i : Nat) (s : String)
  | chartSetTitle (i : Nat) (s : String)
  | chartSetType (i : Nat) (n : Nat)
  | chartSetCategory (i : Nat) (n : Nat)
  | chartSetXAxis (i : Nat) (a : Axis)
  | chartSetYAxis (i : Nat) (a : Axis)
  | addLine (i : Nat) (nm : String)
  | addPoint (i j : Nat) (p : Point)
  | addTable (t : Table)
  | tableAddColumn (i : Nat) (c : ColumnSchema)
  | tableAddSchema (i : Nat) (c : ColumnSchema)
  | tableAddRowRaw (i : Nat) (vs : List Scalar)
  | addCardDef (cd : CardDef)
  | cardSetGroupSize (i g : Nat)
  | addCard (i : Nat) (c : Card)

/-- The state change a builder call performs: a plain update, with no
structural check anywhere. -/
def applyOpPure (d : Document) : BuildOp → Document
  | .addChart c => { d with charts := d.charts ++ [c] }
  | .chartSetId i s =>
      { d with charts := modifyAt d.charts i fun l =>
          { l with chart_def := { l.chart_def with id := s } } }
  | .chartSetTitle i s =>
      { d with charts := modifyAt d.charts i fun l =>
          { l with chart_def := { l.chart_def with title := s } } }
  | .chartSetType i n =>
      { d with charts := modifyAt d.charts i fun l =>
          { l with chart_def := { l.chart_def with typeTag := n } } }
  | .chartSetCategory i n =>
      { d with charts := modifyAt d.charts i fun l =>
          { l with chart_def := { l.chart_def with categoryTag := n } } }
  | .chartSetXAxis i a =>
      { d with charts := modifyAt d.charts i fun l =>
          { l with chart_def := { l.chart_def with x_axis := some a } } }
  | .chartSetYAxis i a =>
      { d with charts := modifyAt d.charts i fun l =>
          { l with chart_def := { l.chart_def with y_axis := some a } } }
  | .addLine i nm =>
      { d with charts := modifyAt d.charts i fun l =>
          { l with lines := l.lines ++ [⟨nm, []⟩] } }
  | .addPoint i j p =>
      { d with charts := modifyAt d.charts i fun l =>
          { l with lines := modifyAt l.lines j fun ln => ln.add_data p } }
  | .addTable t => { d with tables := d.tables ++ [t] }
  | .tableAddColumn i c =>
      { d with tables := modifyAt d.tables i fun t =>
          { t with columns := t.columns ++ [c] } }
  | .tableAddSchema i c =>
      { d with tables := modifyAt d.tables i fun t =>
          { t with data := { t.data with schema := t.data.schema ++ [c] } } }
  | .tableAddRowRaw i vs =>
      { d with tables := modifyAt d.tables i fun t =>
          { t with data := { t.data with rows := t.data.rows ++ [⟨vs⟩] } } }
  | .addCardDef cd => { d with cardDefs := d.cardDefs ++ [cd] }
  | .cardSetGroupSize i g =>
      { d with cardDefs := modifyAt d.cardDefs i fun cd =>
          { cd with group_size := g } }
  | .addCard i c =>
      { d with cardDefs := modifyAt d.cardDefs i fun cd =>
          { cd with data := cd.data ++ [c] } }

/-- Modelled from the spec: every builder setter and collection append
succeeds at call time, structural checks being deferred to seal (§7);
the fallible signature records that a call could in principle report an
error, and the definition shows none ever does. -/
def applyOp (d : Document) (op : BuildOp) : Except Err Document :=
  .ok (applyOpPure d op)

/-- Runs a whole sequence of builder calls, stopping at the first
failure (there is none). -/
def applyOps (d : Document) (ops : List BuildOp) : Except Err Document :=
  ops.foldlM applyOp d

/-- Modelled from the spec: the atoms of the wire encoding.  The wire
mechanism itself is an external collaborator (§1, §6); what the core
owes it is the round-trip law, so the encoding is modelled over an
atom alphabet with repeated fields length-prefixed. -/
inductive Tok where
  | nat (n : Nat)
  | int (i : Int)
  | str (s : String)
  | rat (q : Rat)
  deriving DecidableEq

/-- Raw code of a column/scalar type on the wire. -/
def EpochFolioType.toNat : EpochFolioType → Nat
  | .string => 0
  | .decimal => 1
  | .percent => 2
  | .datetime => 3
  | .boolean => 4

/-- Decodes a column/scalar type code; unknown codes are rejected. -/
def epochFolioTypeOfNat : Nat → Option EpochFolioType
  | 0 => some .string
  | 1 => some .decimal
  | 2 => some .percent
  | 3 => some .datetime
  | 4 => some .boolean
  | _ => none

/-- Concatenated encodings of a sequence of fields. -/
def encMany (f : α → List Tok) : List α → List Tok
  | [] => []
  | x :: xs => f x ++ encMany f xs

/-- Length-prefixed encoding of a repeated field. -/
def encList (f : α → List Tok) (xs : List α) : List Tok :=
  .nat xs.length :: encMany f xs

/-- Decodes a known number of consecutive elements. -/
def decMany (g : List Tok → Option (α × List Tok)) :
    Nat → List Tok → Option (List α × List Tok)
  | 0, ts => some ([], ts)
  | n + 1, ts =>
    match g ts with
    | some (x, ts₁) =>
      match decMany g n ts₁ with
      | some (xs, ts₂) => some (x :: xs, ts₂)
      | none => none
    | none => none

/-- Decodes a length-prefixed repeated field. -/
def decList (g : List Tok → Option (α × List Tok)) :
    List Tok → Option (List α × List Tok)
  | .nat n :: ts => decMany g n ts
  | _ => none

/-- Single-atom field encoders. -/
def encodeNat (n : Nat) : List Tok := [.nat n]

/-- Decodes one natural-number field. -/
def decodeNat : List Tok → Option (Nat × List Tok)
  | .nat n :: ts => some (n, ts)
  | _ => none

/-- Encodes one string field. -/
def encodeStr (s : String) : List Tok := [.str s]

/-- Decodes one string field. -/
def decodeStr : List Tok → Option (String × List Tok)
  | .str s :: ts => some (s, ts)
  | _ => none

/-- Encodes a scalar as a variant tag followed by its payload. -/
def encodeScalar : Scalar → List Tok
  | .null => [.nat 0]
  | .decimalValue q => [.nat 1, .rat q]
  | .percentValue q => [.nat 2, .rat q]
  | .stringValue s => [.nat 3, .str s]
  | .datetimeValue t => [.nat 4, .int t]
  | .booleanValue b => [.nat 5, .nat (cond b 1 0)]

/-- Decodes a scalar from a variant tag and payload. -/
def decodeScalar : List Tok → Option (Scalar × List Tok)
  | .nat 0 :: ts => some (.null, ts)
  | .nat 1 :: .rat q :: ts => some (.decimalValue q, ts)
  | .nat 2 :: .rat q :: ts => some (.percentValue q, ts)
  | .nat 3 :: .str s :: ts => some (.stringValue s, ts)
  | .nat 4 :: .int t :: ts => some (.datetimeValue t, ts)
  | .nat 5 :: .nat 0 :: ts => some (.booleanValue false, ts)
  | .nat 5 :: .nat 1 :: ts => some (.booleanValue true, ts)
  | _ => none

/-- Encodes a declared column type. -/
def encodeType (t : EpochFolioType) : List Tok := [.nat t.toNat]

/-- Decodes a declared column type. -/
def decodeType : List Tok → Option (EpochFolioType × List Tok)
  | .nat n :: ts =>
    match epochFolioTypeOfNat n with
    | some t => some (t, ts)
    | none => none
  | _ => none

/-- Encodes a column definition field by field. -/
def encodeColumnSchema (c : ColumnSchema) : List Tok :=
  encodeStr c.id ++ encodeStr c.name ++ encodeType c.type

/-- Decodes a column definition field by field. -/
def decodeColumnSchema (ts : List Tok) : Option (ColumnSchema × List Tok) :=
  match decodeStr ts with
  | some (i, ts₁) =>
    match decodeStr ts₁ with
    | some (nm, ts₂) =>
      match decodeType ts₂ with
      | some (ty, ts₃) => some (⟨i, nm, ty⟩, ts₃)
      | none => none
    | none => none
  | none => none

/-- Encodes a row as its length-prefixed value sequence. -/
def encodeRow (r : Row) : List Tok := encList encodeScalar r.values

/-- Decodes a row. -/
def decodeRow (ts : List Tok) : Option (Row × List Tok) :=
  match decList decodeScalar ts with
  | some (vs, ts₁) => some (⟨vs⟩, ts₁)
  | none => none

/-- Encodes a table payload: schema then rows. -/
def encodeTableData (td : TableData) : List Tok :=
  encList encodeColumnSchema td.schema ++ encList encodeRow td.rows

/-- Decodes a table payload. -/
def decodeTableData (ts : List Tok) : Option (TableData × List Tok) :=
  match decList decodeColumnSchema ts with
  | some (sc, ts₁) =>
    match decList decodeRow ts₁ with
    | some (rs, ts₂) => some (⟨sc, rs⟩, ts₂)
    | none => none
  | none => none

/-- Encodes a point: x then y. -/
def encodePoint (p : Point) : List Tok :=
  encodeScalar p.x ++ encodeScalar p.y

/-- Decodes a point. -/
def decodePoint (ts : List Tok) : Option (Point × List Tok) :=
  match decodeScalar ts with
  | some (x, ts₁) =>
    match decodeScalar ts₁ with
    | some (y, ts₂) => some (⟨x, y⟩, ts₂)
    | none => none
  | none => none

/-- Encodes a line: name then its length-prefixed point sequence. -/
def encodeLine (l : Line) : List Tok :=
  encodeStr l.name ++ encList encodePoint l.data

/-- Decodes a line. -/
def decodeLine (ts : List Tok) : Option (Line × List Tok) :=
  match decodeStr ts with
  | some (nm, ts₁) =>
    match decList decodePoint ts₁ with
    | some (ps, ts₂) => some (⟨nm, ps⟩, ts₂)
    | none => none
  | none => none

/-- Encodes an axis: raw kind code then label. -/
def encodeAxis (a : Axis) : List Tok :=
  encodeNat a.kind ++ encodeStr a.label

/-- Decodes an axis. -/
def decodeAxis (ts : List Tok) : Option (Axis × List Tok) :=
  match decodeNat ts with
  | some (k, ts₁) =>
    match decodeStr ts₁ with
    | some (lb, ts₂) => some (⟨k, lb⟩, ts₂)
    | none => none
  | none => none

/-- Encodes an optional axis with a presence flag. -/
def encodeOptAxis : Option Axis → List Tok
  | none => [.nat 0]
  | some a => .nat 1 :: encodeAxis a

/-- Decodes an optional axis. -/
def decodeOptAxis : List Tok → Option (Option Axis × List Tok)
  | .nat 0 :: ts => some (none, ts)
  | .nat 1 :: ts =>
    match decodeAxis ts with
    | some (a, ts₁) => some (some a, ts₁)
    | none => none
  | _ => none

/-- Encodes chart metadata field by field. -/
def encodeChartDef (c : ChartDef) : List Tok :=
  encodeStr c.id ++ encodeStr c.title ++ encodeNat c.typeTag ++
    encodeNat c.categoryTag ++ encodeOptAxis c.x_axis ++ encodeOptAxis c.y_axis

/-- Decodes chart metadata. -/
def decodeChartDef (ts : List Tok) : Option (ChartDef × List Tok) :=
  match decodeStr ts with
  | some (i, ts₁) =>
    match decodeStr ts₁ with
    | some (ti, ts₂) =>
      match decodeNat ts₂ with
      | some (ty, ts₃) =>
        match decodeNat ts₃ with
        | some (ca, ts₄) =>
          match decodeOptAxis ts₄ with
          | some (xa, ts₅) =>
            match decodeOptAxis ts₅ with
            | some (ya, ts₆) => some (⟨i, ti, ty, ca, xa, ya⟩, ts₆)
            | none => none
          | none => none
        | none => none
      | none => none
    | none => none
  | none => none

/-- Encodes a lines chart: metadata then its line sequence. -/
def encodeLinesDef (l : LinesDef) : List Tok :=
  encodeChartDef l.chart_def ++ encList encodeLine l.lines

/-- Decodes a lines chart. -/
def decodeLinesDef (ts : List Tok) : Option (LinesDef × List Tok) :=
  match decodeChartDef ts with
  | some (c, ts₁) =>
    match decList decodeLine ts₁ with
    | some (ls, ts₂) => some (⟨c, ls⟩, ts₂)
    | none => none
  | none => none

/-- Encodes a table widget field by field. -/
def encodeTable (t : Table) : List Tok :=
  encodeStr t.id ++ encodeStr t.title ++ encodeNat t.typeTag ++
    encodeNat t.categoryTag ++ encList encodeColumnSchema t.columns ++
    encodeTableData t.data

/-- Decodes a table widget. -/
def decodeTable (ts : List Tok) : Option (Table × List Tok) :=
  match decodeStr ts with
  | some (i, ts₁) =>
    match decodeStr ts₁ with
    | some (ti, ts₂) =>
      match decodeNat ts₂ with
      | some (ty, ts₃) =>
        match decodeNat ts₃ with
        | some (ca, ts₄) =>
          match decList decodeColumnSchema ts₄ with
          | some (cs, ts₅) =>
            match decodeTableData ts₅ with
            | some (da, ts₆) => some (⟨i, ti, ty, ca, cs, da⟩, ts₆)
            | none => none
          | none => none
        | none => none
      | none => none
    | none => none
  | none => none

/-- Encodes one card field by field. -/
def encodeCard (c : Card) : List Tok :=
  encodeStr c.title ++ encodeScalar c.value ++ encodeType c.type ++
    encodeNat c.group

/-- Decodes one card. -/
def decodeCard (ts : List Tok) : Option (Card × List Tok) :=
  match decodeStr ts with
  | some (ti, ts₁) =>
    match decodeScalar ts₁ with
    | some (v, ts₂) =>
      match decodeType ts₂ with
      | some (ty, ts₃) =>
        match decodeNat ts₃ with
        | some (g, ts₄) => some (⟨ti, v, ty, g⟩, ts₄)
        | none => none
      | none => none
    | none => none
  | none => none

/-- Encodes a card collection field by field. -/
def encodeCardDef (cd : CardDef) : List Tok :=
  encodeNat cd.typeTag ++ encodeNat cd.categoryTag ++
    encodeNat cd.group_size ++ encList encodeCard cd.data

/-- Decodes a card collection. -/
def decodeCardDef (ts : List Tok) : Option (CardDef × List Tok) :=
  match decodeNat ts with
  | some (ty, ts₁) =>
    match decodeNat ts₁ with
    | some (ca, ts₂) =>
      match decodeNat ts₂ with
      | some (g, ts₃) =>
        match decList decodeCard ts₃ with
        | some (cs, ts₄) => some (⟨ty, ca, g, cs⟩, ts₄)
        | none => none
      | none => none
    | none => none
  | none => none

/-- Encodes a whole document: charts, tables, card collections. -/
def encodeDocument (d : Document) : List Tok :=
  encList encodeLinesDef d.charts ++ encList encodeTable d.tables ++
    encList encodeCardDef d.cardDefs

/-- Decodes a whole document. -/
def decodeDocument (ts : List Tok) : Option (Document × List Tok) :=
  match decList decodeLinesDef ts with
  | some (cs, ts₁) =>
    match decList decodeTable ts₁ with
    | some (tbs, ts₂) =>
      match decList decodeCardDef ts₂ with
      | some (cds, ts₃) => some (⟨cs, tbs, cds⟩, ts₃)
      | none => none
    | none => none
  | none => none

/-- The document-boundary encoder of §6. -/
def encode (d : Document) : List Tok := encodeDocument d

/-- The document-boundary decoder of §6: the whole atom sequence must
be consumed. -/
def decode (ts : List Tok) : Option Document :=
  match decodeDocument ts with
  | some (d, []) => some d
  | _ => none

theorem decodeNat_enc (n : Nat) (r : List Tok) :
    decodeNat (encodeNat n ++ r) = some (n, r) := rfl

theorem decodeStr_enc (s : String) (r : List Tok) :
    decodeStr (encodeStr s ++ r) = some (s, r) := rfl

theorem decodeScalar_enc :
    ∀ (s : Scalar) (r : List Tok),
      decodeScalar (encodeScalar s ++ r) = some (s, r)
  | .null, _ => rfl
  | .decimalValue _, _ => rfl
  | .percentValue _, _ => rfl
  | .stringValue _, _ => rfl
  | .datetimeValue _, _ => rfl
  | .booleanValue true, _ => rfl
  | .booleanValue false, _ => rfl

theorem decodeType_enc :
    ∀ (t : EpochFolioType) (r : List Tok),
      decodeType (encodeType t ++ r) = some (t, r)
  | .string, _ => rfl
  | .decimal, _ => rfl
  | .percent, _ => rfl
  | .datetime, _ => rfl
  | .boolean, _ => rfl

theorem decMany_enc (g : List Tok → Option (α × List Tok)) (f : α → List Tok)
    (H : ∀ x r, g (f x ++ r) = some (x, r)) :
    ∀ (xs : List α) (r : List Tok),
      decMany g xs.length (encMany f xs ++ r) = some (xs, r)
  | [], _ => rfl
  | x :: xs, r => by
    simp only [encMany, List.length_cons, List.append_assoc, decMany, H x,
      decMany_enc g f H xs r]

theorem decList_enc (g : List Tok → Option (α × List Tok)) (f : α → List Tok)
    (H : ∀ x r, g (f x ++ r) = some (x, r)) (xs : List α) (r : List Tok) :
    decList g (encList f xs ++ r) = some (xs, r) := by
  simp only [encList, List.cons_append, decList, decMany_enc g f H xs r]

theorem decodeColumnSchema_enc (c : ColumnSchema) (r : List Tok) :
    decodeColumnSchema (encodeColumnSchema c ++ r) = some (c, r) := by
  cases c with
  | mk i nm ty =>
    simp [decodeColumnSchema, encodeColumnSchema, List.append_assoc,
      decodeStr_enc, decodeType_enc]

theorem decodeRow_enc (row : Row) (r : List Tok) :
    decodeRow (encodeRow row ++ r) = some (row, r) := by
  cases row with
  | mk vs =>
    simp [decodeRow, encodeRow, decList_enc decodeScalar encodeScalar decodeScalar_enc]

theorem decodeTableData_enc (td : TableData) (r : List Tok) :
    decodeTableData (encodeTableData td ++ r) = some (td, r) := by
  cases td with
  | mk sc rs =>
    simp [decodeTableData, encodeTableData, List.append_assoc,
      decList_enc decodeColumnSchema encodeColumnSchema decodeColumnSchema_enc,
      decList_enc decodeRow encodeRow decodeRow_enc]

theorem decodePoint_enc (p : Point) (r : List Tok) :
    decodePoint (encodePoint p ++ r) = some (p, r) := by
  cases p with
  | mk x y =>
    simp [decodePoint, encodePoint, List.append_assoc, decodeScalar_enc]

theorem decodeLine_enc (l : Line) (r : List Tok) :
    decodeLine (encodeLine l ++ r) = some (l, r) := by
  cases l with
  | mk nm ps =>
    simp [decodeLine, encodeLine, List.append_assoc, decodeStr_enc,
      decList_enc decodePoint encodePoint decodePoint_enc]

theorem decodeAxis_enc (a : Axis) (r : List Tok) :
    decodeAxis (encodeAxis a ++ r) = some (a, r) := by
  cases a with
  | mk k lb =>
    simp [decodeAxis, encodeAxis, List.append_assoc, decodeNat_enc, decodeStr_enc]

theorem decodeOptAxis_enc :
    ∀ (oa : Option Axis) (r : List Tok),
      decodeOptAxis (encodeOptAxis oa ++ r) = some (oa, r)
  | none, _ => rfl
  | some a, r => by
    simp [decodeOptAxis, encodeOptAxis, decodeAxis_enc a r]

theorem decodeChartDef_enc (c : ChartDef) (r : List Tok) :
    decodeChartDef (encodeChartDef c ++ r) = some (c, r) := by
  cases c with
  | mk i ti ty ca xa ya =>
    simp [decodeChartDef, encodeChartDef, List.append_assoc, decodeStr_enc,
      decodeNat_enc, decodeOptAxis_enc]

theorem decodeLinesDef_enc (l : LinesDef) (r : List Tok) :
    decodeLinesDef (encodeLinesDef l ++ r) = some (l, r) := by
  cases l with
  | mk c ls =>
    simp [decodeLinesDef, encodeLinesDef, List.append_assoc, decodeChartDef_enc,
      decList_enc decodeLine encodeLine decodeLine_enc]

theorem decodeTable_enc (t : Table) (r : List Tok) :
    decodeTable (encodeTable t ++ r) = some (t, r) := by
  cases t with
  | mk i ti ty ca cs da =>
    simp [decodeTable, encodeTable, List.append_assoc, decodeStr_enc,
      decodeNat_enc,
      decList_enc decodeColumnSchema encodeColumnSchema decodeColumnSchema_enc,
      decodeTableData_enc]

theorem decodeCard_enc (c : Card) (r : List Tok) :
    decodeCard (encodeCard c ++ r) = some (c, r) := by
  cases c with
  | mk ti v ty g =>
    simp [decodeCard, encodeCard, List.append_assoc, decodeStr_enc,
      decodeScalar_enc, decodeType_enc, decodeNat_enc]

theorem decodeCardDef_enc (cd : CardDef) (r : List Tok) :
    decodeCardDef (encodeCardDef cd ++ r) = some (cd, r) := by
  cases cd with
  | mk ty ca g cs =>
    simp [decodeCardDef, encodeCardDef, List.append_assoc, decodeNat_enc,
      decList_enc decodeCard encodeCard decodeCard_enc]

theorem decodeDocument_enc (d : Document) (r : List Tok) :
    decodeDocument (encodeDocument d ++ r) = some (d, r) := by
  cases d with
  | mk cs tbs cds =>
    simp [decodeDocument, encodeDocument, List.append_assoc,
      decList_enc decodeLinesDef encodeLinesDef decodeLinesDef_enc,
      decList_enc decodeTable encodeTable decodeTable_enc,
      decList_enc decodeCardDef encodeCardDef decodeCardDef_enc]

theorem decode_encode (d : Document) : decode (encode d) = some d := by
  have h := decodeDocument_enc d []
  simp only [List.append_nil] at h
  simp [decode, encode, h]

/-- Modelled from the spec: message objects live behind handles (the
consumer sources reach them through `mutable_` pointers); a store maps
each handle to the whole owned value, so no nested container is shared
between two handles (§3, ownership). -/
def Store (α : Type) : Type := Nat → α

/-- Reads the message a handle designates. -/
def Store.get (s : Store α) (h : Nat) : α := s h

/-- Replaces the message a handle designates. -/
def Store.put (s : Store α) (h : Nat) (v : α) : Store α :=
  fun k => if k = h then v else s k

/-- `dst.CopyFrom(src)` as used at `main.cpp`: the destination handle
receives the source's whole value. -/
def Store.copyFrom (s : Store α) (dst src : Nat) : Store α :=
  s.put dst (s.get src)

/-- Any in-place mutation of the message behind one handle. -/
def Store.mutateAt (s : Store α) (h : Nat) (f : α → α) : Store α :=
  s.put h (f (s.get h))

/-- The column pair of the §8 scenario:
`[("metric", STRING), ("portfolio", PERCENT)]`, no rows yet. -/
def scenarioTable : TableData :=
  { schema := [⟨"metric", "Metric", .string⟩, ⟨"portfolio", "Portfolio", .percent⟩],
    rows := [] }

/-- First scenario step: adding `["Total Return", 12.5%]`. -/
def scenarioStep1 : TableData × Option Err :=
  scenarioTable.add_row [.stringValue "Total Return", .percentValue 12.5]

/-- Second scenario step: adding `["Volatility", 15.2]` with the wrong
variant in the percent column. -/
def scenarioStep2 : TableData × Option Err :=
  scenarioStep1.1.add_row [.stringValue "Volatility", .decimalValue 15.2]

/-- The §8 card scenario, extended state: three cards with group
indices 0, 0 and 2 under `group_size = 2`. -/
def scenarioCards : CardDef :=
  { typeTag := 2, categoryTag := 0, group_size := 2,
    data := [⟨"Total Return", .percentValue 12.5, .percent, 0⟩,
             ⟨"Sharpe Ratio", .decimalValue 1.42, .decimal, 0⟩,
             ⟨"Volatility", .percentValue 15.2, .percent, 2⟩] }

/-- A small structurally valid document: one lines chart with two
axes, one consistent table, one card pair, mirroring `main.cpp`. -/
def sampleDocument : Document :=
  { charts := [⟨⟨"portfolio_performance", "Portfolio Performance vs Benchmark",
        0, 0, some ⟨3, "Date"⟩, some ⟨0, "Returns"⟩⟩,
      [⟨"Portfolio", [⟨.decimalValue 0, .decimalValue 1⟩]⟩]⟩],
    tables := [⟨"summary", "Performance Summary", 1, 0,
      [⟨"metric", "Metric", .string⟩],
      ⟨[⟨"metric", "Metric", .string⟩], [⟨[.stringValue "Total Return"]⟩]⟩⟩],
    cardDefs := [⟨2, 0, 2,
      [⟨"Total Return", .percentValue 12.5, .percent, 0⟩,
       ⟨"Sharpe Ratio", .decimalValue 1.42, .decimal, 0⟩]⟩] }

/-- A document whose card collection violates the group bound, so
sealing must report errors. -/
def invalidDocument : Document :=
  { charts := [], tables := [], cardDefs := [scenarioCards] }

/-- An empty lines chart, the default message value. -/
def emptyLinesDef : LinesDef := ⟨⟨"", "", 0, 0, none, none⟩, []⟩

/-- A store holding the default lines chart behind every handle. -/
def sampleStore : Store LinesDef := fun _ => emptyLinesDef

/-- A line built by appending each point of a list in order,
starting from an empty trace, as both consumer programs do. -/
def buildLine (nm : String) (ps : List Point) : Line :=
  ps.foldl Line.add_data ⟨nm, []⟩

theorem foldl_add_data (l : Line) (ps : List Point) :
    List.foldl Line.add_data l ps = ⟨l.name, l.data ++ ps⟩ := by
  induction ps generalizing l with
  | nil => simp
  | cons p ps ih => simp [Line.add_data, ih, List.append_assoc]

/-- Claim C2: for every Scalar, the presence queries are mutually
exclusive — never two active variants, exactly one for a populated
Scalar — and reading the value of a variant that is not active fails
immediately with TypeMismatch. -/
theorem C2_variant_exclusivity (s : Scalar) :
    (s.is_null = false → s.activeVariants = 1)
    ∧ s.activeVariants ≤ 1
    ∧ (s.has_decimal_value = false →
        s.decimal_value = Except.error Err.typeMismatch)
    ∧ (s.has_percent_value = false →
        s.percent_value = Except.error Err.typeMismatch)
    ∧ (s.has_string_value = false →
        s.string_value = Except.error Err.typeMismatch)
    ∧ (s.has_datetime_value = false →
        s.datetime_value = Except.error Err.typeMismatch)
    ∧ (s.has_boolean_value = false →
        s.boolean_value = Except.error Err.typeMismatch) := by
  cases s <;>
    simp [Scalar.is_null, Scalar.activeVariants, Scalar.has_decimal_value,
      Scalar.has_percent_value, Scalar.has_string_value,
      Scalar.has_datetime_value, Scalar.has_boolean_value,
      Scalar.decimal_value, Scalar.percent_value, Scalar.string_value,
      Scalar.datetime_value, Scalar.boolean_value]

theorem C2_variant_exclusivity_witness :
    (Scalar.stringValue "x").activeVariants = 1
    ∧ (Scalar.stringValue "x").decimal_value = Except.error Err.typeMismatch
    ∧ (Scalar.stringValue "x").percent_value = Except.error Err.typeMismatch
    ∧ (Scalar.stringValue "x").datetime_value = Except.error Err.typeMismatch
    ∧ (Scalar.stringValue "x").boolean_value = Except.error Err.typeMismatch
    ∧ Scalar.null.activeVariants ≤ 1 :=
  ⟨(C2_variant_exclusivity (Scalar.stringValue "x")).1 rfl,
    (C2_variant_exclusivity (Scalar.stringValue "x")).2.2.1 rfl,
    (C2_variant_exclusivity (Scalar.stringValue "x")).2.2.2.1 rfl,
    (C2_variant_exclusivity (Scalar.stringValue "x")).2.2.2.2.2.1 rfl,
    (C2_variant_exclusivity (Scalar.stringValue "x")).2.2.2.2.2.2 rfl,
    (C2_variant_exclusivity Scalar.null).2.1⟩

/-- Claim C7: a default-constructed Scalar is the null state: every
populated-variant presence query returns false on it, and it compares
unequal to any Scalar holding a populated variant. -/
theorem C7_default_is_null (s : Scalar) :
    Scalar.defaultScalar.is_null = true
    ∧ Scalar.defaultScalar.has_decimal_value = false
    ∧ Scalar.defaultScalar.has_percent_value = false
    ∧ Scalar.defaultScalar.has_string_value = false
    ∧ Scalar.defaultScalar.has_datetime_value = false
    ∧ Scalar.defaultScalar.has_boolean_value = false
    ∧ (s.is_null = false → Scalar.defaultScalar ≠ s) := by
  cases s <;>
    simp [Scalar.defaultScalar, Scalar.is_null, Scalar.has_decimal_value,
      Scalar.has_percent_value, Scalar.has_string_value,
      Scalar.has_datetime_value, Scalar.has_boolean_value]

theorem C7_default_is_null_witness :
    Scalar.defaultScalar.is_null = true
    ∧ Scalar.defaultScalar ≠ Scalar.decimalValue 42.5 :=
  ⟨(C7_default_is_null (Scalar.decimalValue 42.5)).1,
    (C7_default_is_null (Scalar.decimalValue 42.5)).2.2.2.2.2.2 rfl⟩

/-- Claim C9: every Scalar setter overwrites whatever variant was
active: after `set_X_value v` from any prior state, `has_X` is true,
reading X yields `v`, and every other variant's presence query is
false (exactly one active variant). -/
theorem C9_setter_overwrites (s : Scalar) (q w : Rat) (st : String)
    (t : Int) (b : Bool) :
    ((s.set_decimal_value q).has_decimal_value = true
      ∧ (s.set_decimal_value q).decimal_value = Except.ok q
      ∧ (s.set_decimal_value q).has_percent_value = false
      ∧ (s.set_decimal_value q).has_string_value = false
      ∧ (s.set_decimal_value q).has_datetime_value = false
      ∧ (s.set_decimal_value q).has_boolean_value = false
      ∧ (s.set_decimal_value q).is_null = false)
    ∧ ((s.set_percent_value w).has_percent_value = true
      ∧ (s.set_percent_value w).percent_value = Except.ok w
      ∧ (s.set_percent_value w).has_decimal_value = false
      ∧ (s.set_percent_value w).activeVariants = 1
      ∧ (s.set_percent_value w).is_null = false)
    ∧ ((s.set_string_value st).has_string_value = true
      ∧ (s.set_string_value st).string_value = Except.ok st
      ∧ (s.set_string_value st).activeVariants = 1
      ∧ (s.set_string_value st).is_null = false)
    ∧ ((s.set_datetime_value t).has_datetime_value = true
      ∧ (s.set_datetime_value t).datetime_value = Except.ok t
      ∧ (s.set_datetime_value t).activeVariants = 1
      ∧ (s.set_datetime_value t).is_null = false)
    ∧ ((s.set_boolean_value b).has_boolean_value = true
      ∧ (s.set_boolean_value b).boolean_value = Except.ok b
      ∧ (s.set_boolean_value b).activeVariants = 1
      ∧ (s.set_boolean_value b).is_null = false) := by
  simp [Scalar.set_decimal_value, Scalar.set_percent_value,
    Scalar.set_string_value, Scalar.set_datetime_value,
    Scalar.set_boolean_value, Scalar.activeVariants, Scalar.is_null,
    Scalar.has_decimal_value, Scalar.has_percent_value,
    Scalar.has_string_value, Scalar.has_datetime_value,
    Scalar.has_boolean_value, Scalar.decimal_value, Scalar.percent_value,
    Scalar.string_value, Scalar.datetime_value, Scalar.boolean_value]

/-- Claim C1: `add_row` succeeds iff the row's length equals the number
of schema columns and each position's variant equals the declared
column type; on any failure nothing is appended and the row count is
unchanged; in the §8 scenario the ill-typed second row fails with
TypeMismatch and `rows_size()` stays 1. -/
theorem C1_add_row_schema_consistency (td : TableData) (values : List Scalar) :
    ((td.add_row values).2 = none ↔
      (values.length = td.schema.length ∧
        ∀ p ∈ List.zip values td.schema, scalarMatchesType p.1 p.2.type = true))
    ∧ ((td.add_row values).2 = none →
        (td.add_row values).1.rows = td.rows ++ [⟨values⟩])
    ∧ ((td.add_row values).2 ≠ none →
        (td.add_row values).1 = td
          ∧ (td.add_row values).1.rows_size = td.rows_size)
    ∧ (scenarioStep1.2 = none ∧ scenarioStep1.1.rows_size = 1
        ∧ scenarioStep2.2 = some Err.typeMismatch
        ∧ scenarioStep2.1.rows_size = 1) := by
  refine ⟨?_, ?_, ?_, rfl, rfl, rfl, rfl⟩
  · unfold TableData.add_row
    split_ifs with h1 h2
    · simp [h1]
    · simp only [ne_eq, not_not] at h1
      simpa [h1] using List.all_eq_true.mp h2
    · simp only [ne_eq, not_not] at h1
      simp only [reduceCtorEq, false_iff, not_and]
      intro _ hall
      exact h2 (List.all_eq_true.mpr hall)
  · unfold TableData.add_row
    split_ifs <;> simp
  · unfold TableData.add_row
    split_ifs <;> simp [TableData.rows_size]

theorem C1_add_row_schema_consistency_witness :
    scenarioStep1.1.rows =
      scenarioTable.rows ++
        [⟨[Scalar.stringValue "Total Return", Scalar.percentValue 12.5]⟩]
    ∧ scenarioStep2.1 = scenarioStep1.1 :=
  ⟨(C1_add_row_schema_consistency scenarioTable
      [Scalar.stringValue "Total Return", Scalar.percentValue 12.5]).2.1 rfl,
    ((C1_add_row_schema_consistency scenarioStep1.1
      [Scalar.stringValue "Volatility", Scalar.decimalValue 15.2]).2.2.1
        (by decide)).1⟩

/-- Claim C3: for every sealed document, decoding the produced byte
encoding yields a value structurally equal to the original, every
Scalar variant, Row and Series point preserved in order. -/
theorem C3_roundtrip (d : Document) (_h : Document.seal d = Except.ok d) :
    decode (encode d) = some d :=
  decode_encode d

theorem C3_roundtrip_witness :
    Document.seal sampleDocument = Except.ok sampleDocument
    ∧ decode (encode sampleDocument) = some sampleDocument :=
  ⟨rfl, C3_roundtrip sampleDocument rfl⟩

/-- Claim C4: a card collection is free of group-bounds violations iff
every card's group index is below `ceil(n/g)`; any card whose group
index is at or beyond `ceil(n/g)` contributes a GroupIndexOutOfRange
violation. -/
theorem C4_group_bounds (cd : CardDef) :
    (cd.groupErrors = [] ↔
      ∀ c ∈ cd.data, c.group < numGroups cd.data.length cd.group_size)
    ∧ (∀ c ∈ cd.data, numGroups cd.data.length cd.group_size ≤ c.group →
        Err.groupIndexOutOfRange ∈ cd.groupErrors) := by
  constructor
  · simp only [CardDef.groupErrors, List.filterMap_eq_nil_iff]
    constructor
    · intro h c hc
      by_contra hlt
      have := h c hc
      simp [hlt] at this
    · intro h c hc
      simp [h c hc]
  · intro c hc hge
    simp only [CardDef.groupErrors, List.mem_filterMap]
    exact ⟨c, hc, by simp [Nat.not_lt.mpr hge]⟩

theorem C4_group_bounds_witness :
    Err.groupIndexOutOfRange ∈ scenarioCards.groupErrors :=
  (C4_group_bounds scenarioCards).2
    ⟨"Volatility", .percentValue 15.2, .percent, 2⟩ (by simp [scenarioCards])
    (by decide)

/-- Claim C5: no builder setter or collection append ever fails or
checks anything at call time — every sequence of builder calls
succeeds and computes the plain state update — and the structural
violations surface only at seal, aggregated into the single multi-error
result of the validation pass. -/
theorem C5_deferred_validation (d : Document) (ops : List BuildOp) :
    applyOps d ops = Except.ok (List.foldl applyOpPure d ops)
    ∧ (∀ d2 : Document,
        (Document.seal d2 = Except.ok d2 ↔ d2.validate = [])
        ∧ (d2.validate ≠ [] → Document.seal d2 = Except.error d2.validate)) := by
  constructor
  · induction ops generalizing d with
    | nil => rfl
    | cons op ops ih => exact ih (applyOpPure d op)
  · intro d2
    cases hv : d2.validate with
    | nil => simp [Document.seal, hv]
    | cons e es => simp [Document.seal, hv]

theorem C5_deferred_validation_witness :
    applyOps ⟨[], [], []⟩ [BuildOp.addCardDef scenarioCards] =
      Except.ok invalidDocument
    ∧ Document.seal invalidDocument = Except.error invalidDocument.validate :=
  ⟨(C5_deferred_validation ⟨[], [], []⟩ [BuildOp.addCardDef scenarioCards]).1,
    ((C5_deferred_validation ⟨[], [], []⟩ []).2 invalidDocument).2 (by decide)⟩

/-- Claim C6: the points of a series are exactly the appended points,
in append order, with `data_size()` the number of appends, and the
sequence survives a serialization round trip verbatim — no reordering
or sorting. -/
theorem C6_series_append_order (nm : String) (ps : List Point) :
    (buildLine nm ps).name = nm
    ∧ (buildLine nm ps).data = ps
    ∧ (buildLine nm ps).data_size = ps.length
    ∧ decodeLine (encodeLine (buildLine nm ps)) = some (buildLine nm ps, []) := by
  have hb : buildLine nm ps = ⟨nm, ps⟩ := by
    simp [buildLine, foldl_add_data]
  refine ⟨by simp [hb], by simp [hb], by simp [hb, Line.data_size], ?_⟩
  simpa using decodeLine_enc (buildLine nm ps) []

/-- Claim C8: seal is idempotent: a second seal/validate call on the
state left by the first returns the same validation result and leaves
the state unchanged. -/
theorem C8_seal_idempotent (s : DocState) :
    sealStep (sealStep s).1 = sealStep s := by
  cases hv : s.doc.validate with
  | nil => simp [sealStep, hv]
  | cons e es => simp [sealStep, hv]

/-- Claim C10: CopyFrom produces an independent deep copy: right after
`dst.CopyFrom(src)` the destination equals the source, and any later
mutation through either handle leaves the other handle's value
unchanged. -/
theorem C10_copyFrom_independent (s : Store LinesDef) (dst src : Nat)
    (h : dst ≠ src) (f g : LinesDef → LinesDef) :
    (s.copyFrom dst src).get dst = s.get src
    ∧ ((s.copyFrom dst src).mutateAt dst f).get src =
        (s.copyFrom dst src).get src
    ∧ ((s.copyFrom dst src).mutateAt src g).get dst =
        (s.copyFrom dst src).get dst := by
  refine ⟨?_, ?_, ?_⟩ <;>
    simp [Store.copyFrom, Store.mutateAt, Store.put, Store.get, h, Ne.symm h]

theorem C10_copyFrom_independent_witness :
    (sampleStore.copyFrom 0 1).get 0 = sampleStore.get 1
    ∧ ((sampleStore.copyFrom 0 1).mutateAt 0
          (fun l => { l with lines := l.lines ++ [⟨"Portfolio", []⟩] })).get 1 =
        (sampleStore.copyFrom 0 1).get 1
    ∧ ((sampleStore.copyFrom 0 1).mutateAt 1
          (fun l => { l with lines := [] })).get 0 =
        (sampleStore.copyFrom 0 1).get 0 :=
  C10_copyFrom_independent sampleStore 0 1 (by decide)
    (fun l => { l with lines := l.lines ++ [⟨"Portfolio", []⟩] })
    (fun l => { l with lines := [] })

end EpochProtos
